import Mathlib

/-!
Shallow embedding of the travel-goals booking backend (`app.py`,
`chatbot_service.py`).  Database tables are lists of row structures; each
HTTP handler becomes a pure function from the database state (plus the
request data and session values) to a result carrying the HTTP status, the
response message and the new database state.  Auto-generated primary keys
and `CURRENT_TIMESTAMP` values are passed in as explicit parameters.
Oracle `NUMBER` columns are modelled as `ℚ` (prices) or `Nat`/`Int`
(ids, counts, 0/1 flags); the external password-hash primitives and the
AI provider are modelled as explicit function/outcome parameters, matching
the spec, which treats them as collaborators.
-/

/-- Row of the `USERS` table.  `is_active` is the 0/1 `NUMBER` flag. -/
structure UserRow where
  user_id : Nat
  username : String
  email : String
  full_name : String
  role_id : Nat
  is_active : Nat
  last_login : Option Nat
  password_hash : String
deriving DecidableEq, Repr

/-- Row of the `USER_ROLES` table.  `register`/`login` use it as a role
lookup keyed by `role_id`; `reject_vendor` deletes from it by `user_id`.
The schema is not part of the repository, so the row carries both columns,
with `user_id` optional. -/
structure UserRoleRow where
  role_id : Nat
  role_name : String
  user_id : Option Nat
deriving DecidableEq, Repr

/-- Row of the `VENDOR_PROFILES` table. -/
structure VendorProfileRow where
  vendor_id : Nat
  user_id : Nat
  company_name : String
  business_license : String
  verification_status : String
  rating : ℚ
deriving DecidableEq, Repr

/-- Row of the live `destinations` table. -/
structure DestinationRow where
  destination_id : Nat
  name : String
  country : String
  description : String
  image_url : String
deriving DecidableEq, Repr

/-- Row of the shadow `pending_destinations` table. -/
structure PendingDestinationRow where
  pending_id : Nat
  vendor_id : Nat
  name : String
  country : String
  description : String
  image_url : String
  status : String
  reviewed_at : Option Nat
  reviewed_by : Option Nat
deriving DecidableEq, Repr

/-- Row of the live `packages` table. -/
structure PackageRow where
  package_id : Nat
  vendor_id : Nat
  destination_id : Nat
  name : String
  description : String
  duration_days : Nat
  max_travelers : Nat
  includes : String
  image_url : String
  adult_price : ℚ
  child_price : ℚ
  infant_price : ℚ
  economy_adult_price : ℚ
  economy_child_price : ℚ
  economy_infant_price : ℚ
  business_adult_price : ℚ
  business_child_price : ℚ
  business_infant_price : ℚ
  is_active : Nat
deriving DecidableEq, Repr

/-- Row of the shadow `pending_packages` table. -/
structure PendingPackageRow where
  pending_pkg_id : Nat
  vendor_id : Nat
  destination_id : Nat
  name : String
  description : String
  duration_days : Nat
  max_travelers : Nat
  includes : String
  image_url : String
  adult_price : ℚ
  child_price : ℚ
  infant_price : ℚ
  economy_adult_price : ℚ
  economy_child_price : ℚ
  economy_infant_price : ℚ
  business_adult_price : ℚ
  business_child_price : ℚ
  business_infant_price : ℚ
  status : String
  reviewed_at : Option Nat
  reviewed_by : Option Nat
deriving DecidableEq, Repr

/-- Row of the `bookings` table (the columns written by `create_booking`). -/
structure BookingRow where
  booking_id : Nat
  user_id : Nat
  package_id : Nat
  from_location : String
  to_location : String
  departure_date : String
  departure_time : String
  return_date : Option String
  return_time : Option String
  preferred_airline : String
  preferred_seating : String
  num_adults : Int
  num_children : Int
  num_infants : Int
  num_travelers : Int
  fare_type : String
  message : String
  total_price : ℚ
  customer_full_name : String
  customer_phone : String
  customer_email : String
  status : String
deriving DecidableEq, Repr

/-- Row of the `reviews` table. -/
structure ReviewRow where
  review_id : Nat
  package_id : Nat
  user_id : Option Nat
  user_name : String
  rating : Int
deriving DecidableEq, Repr

/-- The relational database state: one list per table. -/
structure Db where
  users : List UserRow
  user_roles : List UserRoleRow
  vendor_profiles : List VendorProfileRow
  destinations : List DestinationRow
  pending_destinations : List PendingDestinationRow
  packages : List PackageRow
  pending_packages : List PendingPackageRow
  bookings : List BookingRow
  reviews : List ReviewRow
deriving DecidableEq, Repr

/-- Result of a JSON endpoint: HTTP status, `message` field, and the
database state after the handler (rolled back / unchanged on failure). -/
structure ApiResult where
  status : Nat
  message : String
  db : Db
deriving DecidableEq, Repr

/-- `approve_destination` (app.py): selects the pending row
`WHERE pending_id = :pending_id AND status = 'pending'` (404 when absent),
inserts its fields into `destinations`, then updates the pending row
`WHERE pending_id = :pending_id` to `approved`, stamping reviewer and
time.  `newDestId` models the auto-generated primary key, `now` the
`CURRENT_TIMESTAMP`. -/
def approve_destination (db : Db) (adminId pendingId newDestId now : Nat) :
    ApiResult :=
  match db.pending_destinations.find?
      (fun r => r.pending_id == pendingId && r.status == "pending") with
  | none => ⟨404, "Destination not found", db⟩
  | some r =>
      let db1 := { db with destinations := db.destinations ++
        [(⟨newDestId, r.name, r.country, r.description, r.image_url⟩ :
          DestinationRow)] }
      let db2 := { db1 with pending_destinations :=
        db1.pending_destinations.map (fun (p : PendingDestinationRow) =>
          if p.pending_id == pendingId then
            { p with status := "approved", reviewed_at := some now,
                     reviewed_by := some adminId }
          else p) }
      ⟨200, "Destination approved", db2⟩

/-- `reject_destination` (app.py): a single unconditional
`UPDATE pending_destinations SET status = 'rejected', ...
WHERE pending_id = :pending_id`; there is no `status = 'pending'` guard
and no row-count check, and the handler always returns 200. -/
def reject_destination (db : Db) (adminId pendingId now : Nat) : ApiResult :=
  ⟨200, "Destination rejected",
    { db with pending_destinations := db.pending_destinations.map (fun p =>
        if p.pending_id == pendingId then
          { p with status := "rejected", reviewed_at := some now,
                   reviewed_by := some adminId }
        else p) }⟩

/-- `approve_package` (app.py): selects the pending row
`WHERE pending_pkg_id = :id AND status = 'pending'` (404 when absent),
inserts all seventeen submitted columns into `packages` with
`is_active = 1`, then stamps the pending row `approved`. -/
def approve_package (db : Db) (adminId pendingPkgId newPkgId now : Nat) :
    ApiResult :=
  match db.pending_packages.find?
      (fun r => r.pending_pkg_id == pendingPkgId && r.status == "pending") with
  | none => ⟨404, "Package not found", db⟩
  | some r =>
      let db1 := { db with packages := db.packages ++
        [(⟨newPkgId, r.vendor_id, r.destination_id, r.name, r.description,
          r.duration_days, r.max_travelers, r.includes, r.image_url,
          r.adult_price, r.child_price, r.infant_price,
          r.economy_adult_price, r.economy_child_price,
          r.economy_infant_price, r.business_adult_price,
          r.business_child_price, r.business_infant_price, 1⟩ :
          PackageRow)] }
      let db2 := { db1 with pending_packages :=
        db1.pending_packages.map (fun (p : PendingPackageRow) =>
          if p.pending_pkg_id == pendingPkgId then
            { p with status := "approved", reviewed_at := some now,
                     reviewed_by := some adminId }
          else p) }
      ⟨200, "Package approved", db2⟩

/-- `reject_package` (app.py): unconditional
`UPDATE pending_packages SET status = 'rejected', ... WHERE
pending_pkg_id = :id`, always 200, as for destinations. -/
def reject_package (db : Db) (adminId pendingPkgId now : Nat) : ApiResult :=
  ⟨200, "Package rejected",
    { db with pending_packages := db.pending_packages.map (fun p =>
        if p.pending_pkg_id == pendingPkgId then
          { p with status := "rejected", reviewed_at := some now,
                   reviewed_by := some adminId }
        else p) }⟩

/-- Python `str.strip()` (also standing in for the byte-position-based
`String.trim`, which the kernel cannot reduce): drop whitespace from both
ends, by structural recursion on the character list. -/
def py_strip (s : String) : String :=
  String.mk
    (((s.data.dropWhile Char.isWhitespace).reverse.dropWhile
      Char.isWhitespace).reverse)

/-- Is `pat` a prefix of the character list? -/
def starts_with_chars : List Char → List Char → Bool
  | [], _ => true
  | _ :: _, [] => false
  | a :: as, b :: bs => a == b && starts_with_chars as bs

/-- Does `pat` occur as a contiguous sublist? -/
def contains_chars (pat : List Char) : List Char → Bool
  | [] => starts_with_chars pat []
  | c :: cs => starts_with_chars pat (c :: cs) || contains_chars pat cs

/-- Python `pat in s` substring test. -/
def str_contains (s pat : String) : Bool := contains_chars pat.data s.data

/-- Lowercasing as in Python `str.lower` (ASCII-relevant here). -/
def python_lower (s : String) : String := String.mk (s.data.map Char.toLower)

/-- `any(word in s for word in ws)`. -/
def contains_any (s : String) (ws : List String) : Bool :=
  ws.any (fun w => str_contains s w)

/-- `reject_vendor` (app.py): looks up the profile by `vendor_id` (404 when
absent), then deletes the `vendor_profiles` row, the `user_roles` rows with
that `user_id`, and the `users` row.  No other table is touched. -/
def reject_vendor (db : Db) (vendorId : Nat) : ApiResult :=
  match db.vendor_profiles.find? (fun v => v.vendor_id == vendorId) with
  | none => ⟨404, "Vendor not found", db⟩
  | some vp =>
      let uid := vp.user_id
      ⟨200, "Vendor rejected and removed",
        { db with
          vendor_profiles :=
            db.vendor_profiles.filter (fun v => !(v.vendor_id == vendorId)),
          user_roles :=
            db.user_roles.filter (fun x => !(x.user_id == some uid)),
          users := db.users.filter (fun u => !(u.user_id == uid)) }⟩

/-- Does any row of any table still reference this `user_id`?  Used to
state the no-orphan-rows property of vendor rejection. -/
def references_user (db : Db) (uid : Nat) : Bool :=
  db.users.any (fun u => u.user_id == uid) ||
  db.user_roles.any (fun x => x.user_id == some uid) ||
  db.vendor_profiles.any (fun v => v.user_id == uid) ||
  db.reviews.any (fun r => r.user_id == some uid) ||
  db.bookings.any (fun b => b.user_id == uid)

/-- `toggle_package_status` (app.py): fetches `vendor_id, is_active` by
`package_id` (404 when absent), 403 unless the session vendor owns it,
then writes `is_active := 0 if is_active == 1 else 1`. -/
def toggle_package_status (db : Db) (vendorId packageId : Nat) : ApiResult :=
  match db.packages.find? (fun p => p.package_id == packageId) with
  | none => ⟨404, "Package not found", db⟩
  | some r =>
      if !(r.vendor_id == vendorId) then ⟨403, "Unauthorized", db⟩
      else
        let new_status : Nat := if r.is_active == 1 then 0 else 1
        ⟨200, "Package toggled",
          { db with packages := db.packages.map (fun p =>
              if p.package_id == packageId then
                { p with is_active := new_status }
              else p) }⟩

/-- The rows returned by the public catalog listing `get_packages`
(app.py): `packages` joined to `destinations` and `vendor_profiles`,
restricted by `WHERE p.is_active = 1` (no destination filter). -/
def public_packages (db : Db) : List PackageRow :=
  db.packages.filter (fun p =>
    p.is_active == 1 &&
    db.destinations.any (fun d => d.destination_id == p.destination_id) &&
    db.vendor_profiles.any (fun v => v.vendor_id == p.vendor_id))

/-- Python `int()` on a number: truncation toward zero (`Int.div` is
T-division). -/
def py_int (q : ℚ) : Int := Int.tdiv q.num (q.den : Int)

/-- `submit_review` (app.py): the client rating is any JSON number;
the request is rejected with 400 when `rating` is Python-falsy (absent or
0) or `int(rating)` — truncation toward zero — is not in
`[1, 2, 3, 4, 5]`; 404 when the package does not exist; otherwise inserts
one `reviews` row carrying the truncated rating, with `user_name`
defaulting to `Anonymous` and `user_id` from the session.  `nextReviewId`
models `review_id_seq.NEXTVAL`. -/
def submit_review (db : Db) (sessionUserId : Option Nat) (packageId : Nat)
    (rating : Option ℚ) (userName : Option String) (nextReviewId : Nat) :
    ApiResult :=
  match rating with
  | none => ⟨400, "Please provide a valid rating (1-5)", db⟩
  | some v =>
      if v == 0 || !([1, 2, 3, 4, 5].contains (py_int v)) then
        ⟨400, "Please provide a valid rating (1-5)", db⟩
      else
        let user_name0 := py_strip (userName.getD "")
        let user_name := if user_name0 == "" then "Anonymous" else user_name0
        if !(db.packages.any (fun p => p.package_id == packageId)) then
          ⟨404, "Package not found", db⟩
        else
          ⟨200, "Review submitted successfully!",
            { db with reviews := db.reviews ++
              [(⟨nextReviewId, packageId, sessionUserId, user_name,
                 py_int v⟩ : ReviewRow)] }⟩

/-- The JSON body accepted by `create_booking`; absent keys are `none`.
Numeric fields carry the type the handler coerces them to. -/
structure BookingRequest where
  package_id : Option Nat
  from_location : Option String
  to_location : Option String
  departure_date : Option String
  departure_time : Option String
  preferred_airline : Option String
  preferred_seating : Option String
  num_adults : Option Int
  num_children : Option Int
  num_infants : Option Int
  fare_type : Option String
  return_date : Option String
  return_time : Option String
  message : Option String
  full_name : Option String
  phone : Option String
  email : Option String
  total_price : Option ℚ
deriving DecidableEq, Repr

/-- Python truthiness of an optional string (`data.get(f)`). -/
def truthy_str (o : Option String) : Bool :=
  match o with
  | none => false
  | some s => !(s == "")

/-- Python truthiness of an optional number. -/
def truthy_int (o : Option Int) : Bool :=
  match o with
  | none => false
  | some n => !(n == 0)

/-- Python truthiness of an optional `NUMBER`/float. -/
def truthy_rat (o : Option ℚ) : Bool :=
  match o with
  | none => false
  | some q => !(q == 0)

/-- Python truthiness of an optional id. -/
def truthy_nat (o : Option Nat) : Bool :=
  match o with
  | none => false
  | some n => !(n == 0)

/-- `create_booking` (app.py): 401 without a session user; 400 for each
Python-falsy required field (checked in source order), bad email, missing
round-trip return data, zero travelers, or non-positive client total;
404 when the package id is absent from `packages` (note: no `is_active`
filter); otherwise inserts one `bookings` row with status `pending` whose
`total_price` is the client-supplied value.  `newBookingId` models the
generated key. -/
def create_booking (db : Db) (sessionUserId : Option Nat)
    (req : BookingRequest) (newBookingId : Nat) : ApiResult :=
  match sessionUserId with
  | none => ⟨401, "Please login to make a booking.", db⟩
  | some uid =>
      if !(truthy_nat req.package_id) then
        ⟨400, "package_id is required", db⟩
      else if !(truthy_str req.from_location) then
        ⟨400, "from_location is required", db⟩
      else if !(truthy_str req.to_location) then
        ⟨400, "to_location is required", db⟩
      else if !(truthy_str req.departure_date) then
        ⟨400, "departure_date is required", db⟩
      else if !(truthy_str req.departure_time) then
        ⟨400, "departure_time is required", db⟩
      else if !(truthy_str req.preferred_airline) then
        ⟨400, "preferred_airline is required", db⟩
      else if !(truthy_str req.preferred_seating) then
        ⟨400, "preferred_seating is required", db⟩
      else if !(truthy_int req.num_adults) then
        ⟨400, "num_adults is required", db⟩
      else if !(truthy_str req.fare_type) then
        ⟨400, "fare_type is required", db⟩
      else if !(truthy_str req.full_name) then
        ⟨400, "full_name is required", db⟩
      else if !(truthy_str req.phone) then
        ⟨400, "phone is required", db⟩
      else if !(truthy_str req.email) then
        ⟨400, "email is required", db⟩
      else if !(truthy_rat req.total_price) then
        ⟨400, "total_price is required", db⟩
      else
        let package_id := req.package_id.getD 0
        let from_location := py_strip (req.from_location.getD "")
        let to_location := py_strip (req.to_location.getD "")
        let departure_date := py_strip (req.departure_date.getD "")
        let departure_time := py_strip (req.departure_time.getD "")
        let preferred_airline := req.preferred_airline.getD ""
        let preferred_seating := req.preferred_seating.getD ""
        let num_adults := req.num_adults.getD 1
        let num_children := req.num_children.getD 0
        let num_infants := req.num_infants.getD 0
        let fare_type := req.fare_type.getD ""
        let return_date := if fare_type == "round_trip" then
            some (py_strip (req.return_date.getD "")) else none
        let return_time := if fare_type == "round_trip" then
            some (py_strip (req.return_time.getD "")) else none
        let msg := py_strip (req.message.getD "")
        let full_name := py_strip (req.full_name.getD "")
        let phone := py_strip (req.phone.getD "")
        let email := python_lower (py_strip (req.email.getD ""))
        let total_price := req.total_price.getD 0
        if !(str_contains email "@") || !(str_contains email ".") then
          ⟨400, "Invalid email format", db⟩
        else if fare_type == "round_trip" &&
            (!(truthy_str return_date) || !(truthy_str return_time)) then
          ⟨400, "Return date and time required for round trip", db⟩
        else
          let total_travelers := num_adults + num_children + num_infants
          if total_travelers == 0 then
            ⟨400, "At least one traveler is required", db⟩
          else if total_price ≤ 0 then
            ⟨400, "Invalid total price", db⟩
          else if !(db.packages.any (fun p => p.package_id == package_id)) then
            ⟨404, "Selected package not found", db⟩
          else
            ⟨201, "Booking submitted! Proceeding to payment...",
              { db with bookings := db.bookings ++
                [(⟨newBookingId, uid, package_id, from_location, to_location,
                   departure_date, departure_time, return_date, return_time,
                   preferred_airline, preferred_seating, num_adults,
                   num_children, num_infants, total_travelers, fare_type,
                   msg, total_price, full_name, phone, email, "pending"⟩ :
                  BookingRow)] }⟩

/-- Server-side total as the spec words it ("traveler counts multiplied by
the package's tier prices for the chosen fare/seating class"): this is the
spec-side definition used to compare against what `create_booking` stores,
not a translation of any source code. -/
def spec_total_price (p : PackageRow) (seating : String)
    (adults children infants : Int) : ℚ :=
  if seating == "business" then
    (adults : ℚ) * p.business_adult_price +
    (children : ℚ) * p.business_child_price +
    (infants : ℚ) * p.business_infant_price
  else
    (adults : ℚ) * p.economy_adult_price +
    (children : ℚ) * p.economy_child_price +
    (infants : ℚ) * p.economy_infant_price

/-- The row triple produced by the `login` SQL query for a username:
`USERS` inner-joined to `USER_ROLES` on `role_id` (a user without a
matching role row is not returned), left-joined to `VENDOR_PROFILES` on
`user_id`.  `fetchone` is modelled by `find?` (first match). -/
def login_lookup (db : Db) (username : String) :
    Option (UserRow × String × Option VendorProfileRow) :=
  match db.users.find? (fun u => u.username == username) with
  | none => none
  | some u =>
      match db.user_roles.find? (fun r => r.role_id == u.role_id) with
      | none => none
      | some r =>
          some (u, r.role_name,
            db.vendor_profiles.find? (fun v => v.user_id == u.user_id))

/-- `login` (app.py): strips the username, 400 on empty fields, 401 when no
row matches or neither the secure check (`check_password_hash`) nor the
legacy SHA-256 digest verifies; on a successful legacy check it migrates
and commits the new hash before the active checks; 403 for an inactive or
unverified-vendor account; otherwise stamps `LAST_LOGIN := now` and
returns 200.  The hash primitives are external collaborators, passed in as
`secure_check`, `sha256_hex` and `gen_hash`. -/
def login (db : Db) (rawUsername password : String)
    (secure_check : String → String → Bool)
    (sha256_hex : String → String) (gen_hash : String → String)
    (now : Nat) : ApiResult :=
  let username := py_strip rawUsername
  if username == "" || password == "" then
    ⟨400, "Username and password required", db⟩
  else
    match login_lookup db username with
    | none => ⟨401, "Invalid credentials", db⟩
    | some (u, role_name, vp) =>
        let verified0 := secure_check u.password_hash password
        let legacy := !verified0 && (sha256_hex password == u.password_hash)
        if !(verified0 || legacy) then ⟨401, "Invalid credentials", db⟩
        else
          let db1 := if legacy then
              { db with users := db.users.map (fun x =>
                  if x.user_id == u.user_id then
                    { x with password_hash := gen_hash password }
                  else x) }
            else db
          if u.is_active == 0 then
            if role_name == "vendor" then
              ⟨403, "Your vendor account is pending admin approval. Please wait for activation email.", db1⟩
            else ⟨403, "Account is inactive", db1⟩
          else if role_name == "vendor" &&
              !((match vp with
                 | some v => v.verification_status
                 | none => "None") == "verified") then
            ⟨403, "Vendor account status: " ++
              (match vp with
               | some v => v.verification_status
               | none => "None") ++ ". Please contact admin.", db1⟩
          else
            ⟨200, "Login successful",
              { db1 with users := db1.users.map (fun x =>
                  if x.user_id == u.user_id then
                    { x with last_login := some now }
                  else x) }⟩

/-- Outcome of one call to the external chat-completion provider,
as observed by `TravelChatbot.chat`: a response with at least one choice,
a response with no choices, or a raised exception. -/
inductive ChatCompletion where
  | ok (text : String)
  | empty
  | failure
deriving DecidableEq, Repr

/-- The `{success, message}` dict returned by `TravelChatbot.chat`. -/
structure ChatReply where
  success : Bool
  message : String
deriving DecidableEq, Repr

namespace TravelChatbot

/-- The keyword-driven canned replies of the `except` branch of
`TravelChatbot.chat` (chatbot_service.py). -/
def chat_fallback (userMessage : String) : ChatReply :=
  let user_lower := python_lower userMessage
  if contains_any user_lower ["book", "booking", "reserve"] then
    ⟨true, "✈️ To make a booking, please visit our Contact/Booking page where you can submit your travel details. Our team will get back to you within 24 hours!"⟩
  else if contains_any user_lower
      ["price", "cost", "how much", "cheap", "budget"] then
    ⟨true, "💰 Our packages range from $900 to $2500+ depending on destination and duration. Visit the Packages page to see all options with detailed pricing!"⟩
  else if contains_any user_lower
      ["destination", "where", "place", "country"] then
    ⟨true, "🌍 We offer amazing destinations including Paris, Tokyo, Dubai, Bali, Barcelona, London, and more! Check our Destinations page for the full list."⟩
  else
    ⟨false, "Sorry, I encountered a temporary issue. Please try again in a moment."⟩

/-- `TravelChatbot.chat` (chatbot_service.py): unavailable when the client
is missing, empty-message guard, then the provider call; a provider
exception lands in `chat_fallback`.  `initialized` models
`self.initialized`, `completion` the provider outcome. -/
def chat (initialized : Bool) (userMessage : String)
    (completion : ChatCompletion) : ChatReply :=
  if !initialized then
    ⟨false, "Chat service is currently unavailable. Please try again later."⟩
  else if userMessage == "" || py_strip userMessage == "" then
    ⟨false, "Please enter a message."⟩
  else
    match completion with
    | .ok text => ⟨true, py_strip text⟩
    | .empty => ⟨false, "I couldn\x27t generate a response. Please try again."⟩
    | .failure => chat_fallback userMessage

/-- `TravelChatbot.get_quick_replies` (chatbot_service.py): five default
suggestions, overridden by three keyword-specific five-element lists; a
falsy (absent or empty) context keeps the defaults.  No provider call
occurs in this method. -/
def get_quick_replies (context : Option String) : List String :=
  let default_replies :=
    ["🏖️ Beach destinations", "🏔️ Adventure trips",
     "💰 Budget-friendly options", "✈️ How to book?", "📦 Popular packages"]
  match context with
  | none => default_replies
  | some c =>
      if c == "" then default_replies
      else
        let context_lower := python_lower c
        if str_contains context_lower "paris" ||
            str_contains context_lower "europe" then
          ["Paris packages", "Best time to visit", "London trips",
           "Barcelona tours", "How to book?"]
        else if str_contains context_lower "tokyo" ||
            str_contains context_lower "japan" ||
            str_contains context_lower "asia" then
          ["Tokyo packages", "Bali beaches", "Dubai luxury",
           "Best time to visit", "How to book?"]
        else if str_contains context_lower "beach" ||
            str_contains context_lower "tropical" then
          ["Bali packages", "Maldives trips", "Hawaii tours",
           "Miami beaches", "Budget options"]
        else default_replies

end TravelChatbot

/-- The dict returned by `TravelChatbot.summarize_reviews`; keys absent in
a given branch are `none`.  Python float arithmetic on ratings is modelled
by exact rationals. -/
structure ReviewSummary where
  summary : String
  sentiment : String
  key_points : List String
  pros : Option (List String)
  cons : Option (List String)
  total_reviews : Option Nat
  avg_rating : Option ℚ
deriving DecidableEq, Repr

/-- Outcome of the provider call inside `summarize_reviews`: parseable
JSON (already decoded into a `ReviewSummary`) or a raised exception
(which also covers unparseable JSON). -/
inductive SummaryCompletion where
  | ok (data : ReviewSummary)
  | failure
deriving DecidableEq, Repr

/-- The fixed no-reviews fallback dict of `summarize_reviews`. -/
def no_reviews_summary : ReviewSummary :=
  ⟨"No reviews yet. Be the first to share your experience!", "neutral",
   [], none, none, none, none⟩

/-- `round(q, 1)` on the exact rational model. -/
def round_tenths (q : ℚ) : ℚ := (round (q * 10) : ℤ) / 10

/-- `"{:.1f}".format q` for the non-negative averages that occur here. -/
def fmt_tenths (q : ℚ) : String :=
  let t : ℤ := round (q * 10)
  toString (t / 10) ++ "." ++ toString (t % 10)

namespace TravelChatbot

/-- `TravelChatbot.summarize_reviews` (chatbot_service.py): the
no-client and no-reviews branches return the fixed neutral fallback; up
to two reviews short-circuit to a deterministic neutral digest before any
provider call; three or more reviews go to the provider, whose parsed
result is augmented with `total_reviews`/`avg_rating`, with a mixed
fallback on exception.  `reviews` carries the `rating` column values. -/
def summarize_reviews (initialized : Bool) (completion : SummaryCompletion)
    (reviews : List Int) (_packageName : String) : ReviewSummary :=
  if !initialized then no_reviews_summary
  else if reviews.length == 0 then no_reviews_summary
  else if reviews.length ≤ 2 then
    { summary := "Based on " ++ toString reviews.length ++
        " initial rating(s). Not enough data for AI deep-dive.",
      sentiment := "neutral",
      key_points := reviews.map (fun r =>
        "Recent Customer Rating: " ++ toString r ++ "/5"),
      pros := some ["Growing interest"], cons := some [],
      total_reviews := none, avg_rating := none }
  else
    let avg : ℚ := ((reviews.map (fun r => (r : ℚ))).sum) / reviews.length
    match completion with
    | .ok d =>
        { d with total_reviews := some reviews.length,
                 avg_rating := some (round_tenths avg) }
    | .failure =>
        { summary := "Based on " ++ toString reviews.length ++
            " reviews (avg " ++ fmt_tenths avg ++
            "/5). Check individual reviews for details.",
          sentiment := "mixed", key_points := [], pros := none, cons := none,
          total_reviews := some reviews.length,
          avg_rating := some (round_tenths avg) }

end TravelChatbot

/-- Result of the `/api/chat` endpoint: HTTP status plus the JSON body
fields (`chat_with_ai` serialises the `ChatReply` directly). -/
structure ChatHttpResult where
  status : Nat
  success : Bool
  message : String
deriving DecidableEq, Repr

/-- `chat_with_ai` (app.py): strips the message, 400 when empty, then
forwards to `TravelChatbot.chat` and returns its reply with
`200 if response.get('success') else 500`. -/
def chat_with_ai (initialized : Bool) (completion : ChatCompletion)
    (rawMessage : String) : ChatHttpResult :=
  let user_message := py_strip rawMessage
  if user_message == "" then ⟨400, false, "Please enter a message"⟩
  else
    let r := TravelChatbot.chat initialized user_message completion
    ⟨if r.success then 200 else 500, r.success, r.message⟩

/-- The four deterministic messages the `chat` fallback path can produce
on a provider exception. -/
def chat_canned_messages : List String :=
  ["✈️ To make a booking, please visit our Contact/Booking page where you can submit your travel details. Our team will get back to you within 24 hours!",
   "💰 Our packages range from $900 to $2500+ depending on destination and duration. Visit the Packages page to see all options with detailed pricing!",
   "🌍 We offer amazing destinations including Paris, Tokyo, Dubai, Bali, Barcelona, London, and more! Check our Destinations page for the full list.",
   "Sorry, I encountered a temporary issue. Please try again in a moment."]

/-- One entry of the JSON `recommendations` array returned by the
recommendation provider call. -/
structure Recommendation where
  package_id : Nat
  match_score : Nat
  reasoning : String
deriving DecidableEq, Repr

/-- Outcome of the provider call inside `recommend_packages`: parseable
JSON (already decoded, with `recommendations` defaulting to `[]` when the
key is absent) or a raised exception (also covering unparseable JSON). -/
inductive RecommendCompletion where
  | ok (recs : List Recommendation)
  | failure
deriving DecidableEq, Repr

/-- The raw `arguments` object of the intent-extraction tool call;
absent keys are `none`. -/
structure IntentArgs where
  destination_type : Option String
  destination_name : Option String
  duration_days : Option Int
  adults : Option Int
  children : Option Int
  infants : Option Int
  max_budget : Option ℚ
  preferred_month : Option String
  interests : Option (List String)
deriving DecidableEq, Repr

/-- The result dict built by `extract_booking_intent` from the tool-call
arguments, with the source's defaults filled in. -/
structure BookingIntent where
  destination_type : String
  destination_name : String
  duration_days : Option Int
  adults : Int
  children : Int
  infants : Int
  max_budget : Option ℚ
  preferred_month : String
  interests : List String
deriving DecidableEq, Repr

/-- Outcome of the provider call inside `extract_booking_intent`: a
response carrying a tool call, one without, or a raised exception. -/
inductive IntentCompletion where
  | toolCall (args : IntentArgs)
  | noToolCall
  | failure
deriving DecidableEq, Repr

namespace TravelChatbot

/-- `TravelChatbot.recommend_packages` (chatbot_service.py): returns `[]`
when the client is missing; otherwise the parsed `recommendations` of the
provider response, with `[]` on any exception.  The preferences and the
candidate packages only feed the prompt text. -/
def recommend_packages (initialized : Bool)
    (completion : RecommendCompletion) (_preferences : List String)
    (_availablePackages : List PackageRow) : List Recommendation :=
  if !initialized then []
  else
    match completion with
    | .ok recs => recs
    | .failure => []

/-- `TravelChatbot.extract_booking_intent` (chatbot_service.py): returns
`none` when the client is missing, when the response carries no tool call,
or on any exception; otherwise the argument dict with the source's
defaults (`Any`, empty strings, 1 adult, 0 children/infants, `[]`
interests). -/
def extract_booking_intent (initialized : Bool)
    (completion : IntentCompletion) (_userQuery : String) :
    Option BookingIntent :=
  if !initialized then none
  else
    match completion with
    | .toolCall a =>
        some ⟨a.destination_type.getD "Any", a.destination_name.getD "",
          a.duration_days, a.adults.getD 1, a.children.getD 0,
          a.infants.getD 0, a.max_budget, a.preferred_month.getD "",
          a.interests.getD []⟩
    | .noToolCall => none
    | .failure => none

end TravelChatbot

/-- If the rows matching `q` are exactly `[r]` and `p` refines `q`, the
first row matching `p` is `r` (provided `r` matches `p`). -/
theorem find_of_filter_single {α : Type} (p q : α → Bool)
    (hpq : ∀ x, p x = true → q x = true) :
    ∀ (l : List α) (r : α), l.filter q = [r] → p r = true →
      l.find? p = some r := by
  intro l
  induction l with
  | nil => intro r h _; simp [List.filter] at h
  | cons x t ih =>
      intro r h hpr
      by_cases hq : q x = true
      · rw [List.filter_cons_of_pos hq] at h
        obtain ⟨hx, ht⟩ := List.cons_eq_cons.mp h
        subst hx
        simp [List.find?, hpr]
      · have hp : p x = false := by
          cases hpx : p x with
          | false => rfl
          | true => exact absurd (hpq x hpx) hq
        rw [List.filter_cons_of_neg hq] at h
        simp [List.find?, hp]
        exact ih r h hpr

/-- If no row matches `p`, `find?` returns `none`. -/
theorem find_none_of_all_false {α : Type} (p : α → Bool) :
    ∀ l : List α, (∀ x ∈ l, p x = false) → l.find? p = none := by
  intro l
  induction l with
  | nil => intro _; rfl
  | cons x t ih =>
      intro h
      have hx := h x (List.mem_cons_self x t)
      simp [List.find?, hx]
      intro y hy
      simp [h y (List.mem_cons_of_mem x hy)]

/-- A filter equal to `[r]` puts `r` in the list and `q r` holds. -/
theorem mem_of_filter_single {α : Type} (q : α → Bool) :
    ∀ (l : List α) (r : α), l.filter q = [r] → r ∈ l ∧ q r = true := by
  intro l r h
  have : r ∈ l.filter q := by rw [h]; exact List.mem_singleton.mpr rfl
  exact ⟨List.mem_of_mem_filter this, List.of_mem_filter this⟩

/-- A filter equal to `[]` means no element matches. -/
theorem filter_nil_all_false {α : Type} (q : α → Bool) :
    ∀ l : List α, l.filter q = [] → ∀ x ∈ l, q x = false := by
  intro l
  induction l with
  | nil => intro _ x hx; cases hx
  | cons y t ih =>
      intro h x hx
      cases hqy : q y with
      | true => rw [List.filter_cons_of_pos hqy] at h; cases h
      | false =>
          rw [List.filter_cons_of_neg (by simp [hqy])] at h
          cases hx with
          | head => exact hqy
          | tail _ hm => exact ih h x hm

/-- A filter equal to `[r]` means every matching element is `r`. -/
theorem eq_of_filter_single {α : Type} (q : α → Bool) :
    ∀ (l : List α) (r : α), l.filter q = [r] →
      ∀ x ∈ l, q x = true → x = r := by
  intro l
  induction l with
  | nil => intro r h; simp [List.filter] at h
  | cons y t ih =>
      intro r h x hx hqx
      cases hqy : q y with
      | true =>
          rw [List.filter_cons_of_pos hqy] at h
          obtain ⟨hy, ht⟩ := List.cons_eq_cons.mp h
          subst hy
          cases hx with
          | head => rfl
          | tail _ hm =>
              rw [filter_nil_all_false q t ht x hm] at hqx
              cases hqx
      | false =>
          rw [List.filter_cons_of_neg (by simp [hqy])] at h
          cases hx with
          | head => rw [hqy] at hqx; cases hqx
          | tail _ hm => exact ih r h x hm hqx

/-- Filtering a mapped list when the map preserves the predicate. -/
theorem filter_map_preserve {α : Type} (f : α → α) (q : α → Bool)
    (hf : ∀ x, q (f x) = q x) :
    ∀ l : List α, (l.map f).filter q = (l.filter q).map f := by
  intro l
  induction l with
  | nil => rfl
  | cons x t ih =>
      by_cases hq : q x = true
      · rw [List.map_cons, List.filter_cons_of_pos (by rw [hf]; exact hq),
          List.filter_cons_of_pos hq, List.map_cons, ih]
      · rw [List.map_cons,
          List.filter_cons_of_neg (by rw [hf]; exact hq),
          List.filter_cons_of_neg hq, ih]

/-- A map that fixes every member is the identity. -/
theorem map_eq_self_of_forall {α : Type} (f : α → α) :
    ∀ l : List α, (∀ x ∈ l, f x = x) → l.map f = l := by
  intro l
  induction l with
  | nil => intro _; rfl
  | cons x t ih =>
      intro h
      rw [List.map_cons, h x (List.mem_cons_self x t),
        ih (fun y hy => h y (List.mem_cons_of_mem x hy))]

/-- C1: for every pending destination or package row whose status is
`pending`, one `approve` call returns 200, appends exactly one row to the
corresponding live table whose field values are identical to the submitted
pending fields (packages additionally get `is_active = 1`), and rewrites
that pending row to status `approved` with reviewer id and review time
stamped. -/
theorem C1_approve_copies_pending_fields
    (db db2 : Db) (r : PendingDestinationRow) (q : PendingPackageRow)
    (adminId pid newId now adminId2 pid2 newId2 now2 : Nat)
    (hd : db.pending_destinations.filter
      (fun p => p.pending_id == pid) = [r])
    (hds : r.status = "pending")
    (hp : db2.pending_packages.filter
      (fun p => p.pending_pkg_id == pid2) = [q])
    (hps : q.status = "pending") :
    (approve_destination db adminId pid newId now).status = 200 ∧
    (approve_destination db adminId pid newId now).db.destinations =
      db.destinations ++
        [⟨newId, r.name, r.country, r.description, r.image_url⟩] ∧
    ({ r with status := "approved", reviewed_at := some now,
              reviewed_by := some adminId } : PendingDestinationRow) ∈
      (approve_destination db adminId pid newId now).db.pending_destinations ∧
    (approve_package db2 adminId2 pid2 newId2 now2).status = 200 ∧
    (approve_package db2 adminId2 pid2 newId2 now2).db.packages =
      db2.packages ++
        [⟨newId2, q.vendor_id, q.destination_id, q.name, q.description,
          q.duration_days, q.max_travelers, q.includes, q.image_url,
          q.adult_price, q.child_price, q.infant_price,
          q.economy_adult_price, q.economy_child_price,
          q.economy_infant_price, q.business_adult_price,
          q.business_child_price, q.business_infant_price, 1⟩] ∧
    ({ q with status := "approved", reviewed_at := some now2,
              reviewed_by := some adminId2 } : PendingPackageRow) ∈
      (approve_package db2 adminId2 pid2 newId2 now2).db.pending_packages := by
  obtain ⟨hmemd, hbd⟩ := mem_of_filter_single _ _ _ hd
  obtain ⟨hmemp, hbp⟩ := mem_of_filter_single _ _ _ hp
  have hfindd : db.pending_destinations.find?
      (fun p => p.pending_id == pid && p.status == "pending") = some r := by
    refine find_of_filter_single _ _ ?_ _ _ hd ?_
    · intro x hx
      simp only [Bool.and_eq_true] at hx
      exact hx.1
    · simp [hbd, hds]
  have hfindp : db2.pending_packages.find?
      (fun p => p.pending_pkg_id == pid2 && p.status == "pending") =
        some q := by
    refine find_of_filter_single _ _ ?_ _ _ hp ?_
    · intro x hx
      simp only [Bool.and_eq_true] at hx
      exact hx.1
    · simp [hbp, hps]
  refine ⟨?_, ?_, ?_, ?_, ?_, ?_⟩
  · simp [approve_destination, hfindd]
  · simp [approve_destination, hfindd]
  · simp only [approve_destination, hfindd]
    have hm := List.mem_map_of_mem (fun (p : PendingDestinationRow) =>
      if p.pending_id == pid then
        { p with status := "approved", reviewed_at := some now,
                 reviewed_by := some adminId }
      else p) hmemd
    simpa [hbd] using hm
  · simp [approve_package, hfindp]
  · simp [approve_package, hfindp]
  · simp only [approve_package, hfindp]
    have hm := List.mem_map_of_mem (fun (p : PendingPackageRow) =>
      if p.pending_pkg_id == pid2 then
        { p with status := "approved", reviewed_at := some now2,
                 reviewed_by := some adminId2 }
      else p) hmemp
    simpa [hbp] using hm

/-- C1 witness: the theorem applied to a concrete one-row pending state
for each table. -/
theorem C1_approve_copies_pending_fields_witness :
    (approve_destination
        ⟨[], [], [], [], [⟨1, 7, "Paris", "France", "d", "img", "pending",
          none, none⟩], [], [], [], []⟩ 9 1 100 5).status = 200 ∧
    (approve_destination
        ⟨[], [], [], [], [⟨1, 7, "Paris", "France", "d", "img", "pending",
          none, none⟩], [], [], [], []⟩ 9 1 100 5).db.destinations =
      [] ++ [⟨100, "Paris", "France", "d", "img"⟩] ∧
    (⟨1, 7, "Paris", "France", "d", "img", "approved", some 5, some 9⟩ :
        PendingDestinationRow) ∈
      (approve_destination
        ⟨[], [], [], [], [⟨1, 7, "Paris", "France", "d", "img", "pending",
          none, none⟩], [], [], [], []⟩ 9 1 100 5).db.pending_destinations ∧
    (approve_package
        ⟨[], [], [], [], [], [], [⟨2, 7, 3, "Tour", "td", 4, 10, "inc",
          "pimg", 100, 50, 10, 90, 45, 9, 180, 90, 18, "pending", none,
          none⟩], [], []⟩ 9 2 200 5).status = 200 ∧
    (approve_package
        ⟨[], [], [], [], [], [], [⟨2, 7, 3, "Tour", "td", 4, 10, "inc",
          "pimg", 100, 50, 10, 90, 45, 9, 180, 90, 18, "pending", none,
          none⟩], [], []⟩ 9 2 200 5).db.packages =
      [] ++ [⟨200, 7, 3, "Tour", "td", 4, 10, "inc", "pimg", 100, 50, 10,
        90, 45, 9, 180, 90, 18, 1⟩] ∧
    (⟨2, 7, 3, "Tour", "td", 4, 10, "inc", "pimg", 100, 50, 10, 90, 45, 9,
        180, 90, 18, "approved", some 5, some 9⟩ : PendingPackageRow) ∈
      (approve_package
        ⟨[], [], [], [], [], [], [⟨2, 7, 3, "Tour", "td", 4, 10, "inc",
          "pimg", 100, 50, 10, 90, 45, 9, 180, 90, 18, "pending", none,
          none⟩], [], []⟩ 9 2 200 5).db.pending_packages :=
  C1_approve_copies_pending_fields
    ⟨[], [], [], [], [⟨1, 7, "Paris", "France", "d", "img", "pending",
      none, none⟩], [], [], [], []⟩
    ⟨[], [], [], [], [], [], [⟨2, 7, 3, "Tour", "td", 4, 10, "inc",
      "pimg", 100, 50, 10, 90, 45, 9, 180, 90, 18, "pending", none,
      none⟩], [], []⟩
    ⟨1, 7, "Paris", "France", "d", "img", "pending", none, none⟩
    ⟨2, 7, 3, "Tour", "td", 4, 10, "inc", "pimg", 100, 50, 10, 90, 45, 9,
      180, 90, 18, "pending", none, none⟩
    9 1 100 5 9 2 200 5 (by decide) rfl (by decide) rfl

/-- Example state: one pending destination that has already been approved. -/
def exDbDestApproved : Db :=
  ⟨[], [], [], [], [⟨1, 7, "Paris", "France", "d", "img", "approved",
    some 1, some 9⟩], [], [], [], []⟩

/-- Example state: one pending package that has already been rejected. -/
def exDbPkgRejected : Db :=
  ⟨[], [], [], [], [], [], [⟨2, 7, 3, "Tour", "td", 4, 10, "inc", "pimg",
    100, 50, 10, 90, 45, 9, 180, 90, 18, "rejected", some 1, some 9⟩],
   [], []⟩

/-- C2 counterexample: rejecting a pending destination that was already
decided (status `approved`) does not fail with a not-found-equivalent
error — it returns 200 and mutates the pending table (flipping the row to
`rejected` and re-stamping it), contradicting the claim. -/
theorem C2_reject_decided_counterexample :
    (reject_destination exDbDestApproved 9 1 5).status = 200 ∧
    (reject_destination exDbDestApproved 9 1 5).db ≠ exDbDestApproved := by
  decide

/-- C2 amended: `approve` on an already-decided pending destination or
package row does fail with a 404 ("Destination/Package not found", not an
"already processed" message) and leaves the state unchanged — so approving
the same pending id twice leaves exactly one live row; `reject`, however,
never fails: on any pending id it returns 200, leaves the live table
unchanged, and unconditionally re-stamps every row with that id as
`rejected`. -/
theorem C2_decided_rows_amended
    (db db2 db3 db4 : Db)
    (adminId pid pid2 pid3 pid4 newId newId2 now : Nat)
    (hd : ∀ r ∈ db.pending_destinations, (r.pending_id == pid) = true →
      r.status ≠ "pending")
    (hp : ∀ r ∈ db2.pending_packages, (r.pending_pkg_id == pid2) = true →
      r.status ≠ "pending") :
    approve_destination db adminId pid newId now =
      ⟨404, "Destination not found", db⟩ ∧
    approve_package db2 adminId pid2 newId2 now =
      ⟨404, "Package not found", db2⟩ ∧
    (reject_destination db3 adminId pid3 now).status = 200 ∧
    (reject_destination db3 adminId pid3 now).db.destinations =
      db3.destinations ∧
    (reject_destination db3 adminId pid3 now).db.pending_destinations =
      db3.pending_destinations.map (fun p =>
        if p.pending_id == pid3 then
          { p with status := "rejected", reviewed_at := some now,
                   reviewed_by := some adminId }
        else p) ∧
    (reject_package db4 adminId pid4 now).status = 200 ∧
    (reject_package db4 adminId pid4 now).db.packages = db4.packages ∧
    (reject_package db4 adminId pid4 now).db.pending_packages =
      db4.pending_packages.map (fun p =>
        if p.pending_pkg_id == pid4 then
          { p with status := "rejected", reviewed_at := some now,
                   reviewed_by := some adminId }
        else p) := by
  have hfd : db.pending_destinations.find?
      (fun r => r.pending_id == pid && r.status == "pending") = none := by
    apply find_none_of_all_false
    intro x hx
    cases hbb : (x.pending_id == pid) with
    | false => simp [hbb]
    | true =>
        have hs := hd x hx hbb
        simp [hbb, hs]
  have hfp : db2.pending_packages.find?
      (fun r => r.pending_pkg_id == pid2 && r.status == "pending") =
        none := by
    apply find_none_of_all_false
    intro x hx
    cases hbb : (x.pending_pkg_id == pid2) with
    | false => simp [hbb]
    | true =>
        have hs := hp x hx hbb
        simp [hbb, hs]
  refine ⟨?_, ?_, rfl, rfl, rfl, rfl, rfl, rfl⟩
  · simp [approve_destination, hfd]
  · simp [approve_package, hfp]

/-- C2 witness: the amended theorem applied to the concrete
already-approved destination and already-rejected package states. -/
theorem C2_decided_rows_amended_witness :
    approve_destination exDbDestApproved 9 1 101 5 =
      ⟨404, "Destination not found", exDbDestApproved⟩ ∧
    approve_package exDbPkgRejected 9 2 201 5 =
      ⟨404, "Package not found", exDbPkgRejected⟩ ∧
    (reject_destination exDbDestApproved 9 1 5).status = 200 ∧
    (reject_destination exDbDestApproved 9 1 5).db.destinations =
      exDbDestApproved.destinations ∧
    (reject_destination exDbDestApproved 9 1 5).db.pending_destinations =
      exDbDestApproved.pending_destinations.map (fun p =>
        if p.pending_id == 1 then
          { p with status := "rejected", reviewed_at := some 5,
                   reviewed_by := some 9 }
        else p) ∧
    (reject_package exDbPkgRejected 9 2 5).status = 200 ∧
    (reject_package exDbPkgRejected 9 2 5).db.packages =
      exDbPkgRejected.packages ∧
    (reject_package exDbPkgRejected 9 2 5).db.pending_packages =
      exDbPkgRejected.pending_packages.map (fun p =>
        if p.pending_pkg_id == 2 then
          { p with status := "rejected", reviewed_at := some 5,
                   reviewed_by := some 9 }
        else p) :=
  C2_decided_rows_amended exDbDestApproved exDbPkgRejected
    exDbDestApproved exDbPkgRejected 9 1 2 1 2 101 201 5
    (by decide) (by decide)

/-- Example live package: economy adult tier price 500. -/
def exPkgRow : PackageRow :=
  ⟨1, 2, 3, "Tour", "td", 4, 10, "inc", "pimg", 100, 50, 10, 500, 45, 9,
   180, 90, 18, 1⟩

/-- Example state holding only `exPkgRow`. -/
def exDbCatalog : Db := ⟨[], [], [], [], [], [exPkgRow], [], [], []⟩

/-- Example booking request: one adult, economy seating, client-supplied
`total_price` of 999 — while the economy adult tier price is 500. -/
def exBookingReq : BookingRequest :=
  ⟨some 1, some "KHI", some "PAR", some "2026-01-01", some "10:00",
   some "PIA", some "economy", some 1, none, none, some "one_way", none,
   none, none, some "Ali Raza", some "123", some "a@b.com", some 999⟩

/-- C3: `create_booking` accepts the request (201) and stores the
client-supplied 999 as the booking total, although one adult at the
package's economy tier computes to 500 — the stored total is not derived
from traveler counts and tier prices, exhibiting the client-trusted-price
defect the spec flags. -/
theorem C3_client_price_stored :
    (create_booking exDbCatalog (some 10) exBookingReq 1).status = 201 ∧
    ((create_booking exDbCatalog (some 10) exBookingReq 1).db.bookings.map
      (fun b => b.total_price)) = [999] ∧
    spec_total_price exPkgRow "economy" 1 0 0 = 500 ∧
    (999 : ℚ) ≠ 500 := by
  refine ⟨?_, ?_, ?_, by norm_num⟩
  · decide
  · decide
  · simp [spec_total_price, exPkgRow]

/-- C4 counterexample: with the provider credentials missing
(`initialized = false`) the chat endpoint returns the canned body with
HTTP status 500 — the failure is surfaced as a 500 to the chat-facing
endpoint, contradicting the claim. -/
theorem C4_missing_credentials_500 :
    chat_with_ai false (ChatCompletion.ok "hi") "hello" =
      ⟨500, false,
       "Chat service is currently unavailable. Please try again later."⟩ := by
  decide

/-- C4 amended: every degraded AI-assistant call still returns a
deterministic canned response or empty result — chat yields the fixed
unavailable message on missing credentials and one of four fixed keyword
fallbacks (never provider text) on a provider exception, recommendation
returns `[]`, intent extraction returns `none`, and the review summary
returns the fixed no-reviews dict on missing credentials and a canned
neutral/mixed digest on a provider exception — but the `/api/chat`
endpoint maps a canned reply with `success = false` to HTTP 500: status
200 is returned exactly when the keyword fallback marks the reply
successful. -/
theorem C4_degrade_amended (msg : String) (comp : ChatCompletion)
    (rcomp : RecommendCompletion) (icomp : IntentCompletion)
    (scomp : SummaryCompletion) (prefs : List String)
    (pkgs : List PackageRow) (query : String) (reviews : List Int)
    (pname : String)
    (h1 : py_strip msg = msg) (h2 : msg ≠ "") :
    chat_with_ai false comp msg =
      ⟨500, false,
       "Chat service is currently unavailable. Please try again later."⟩ ∧
    (chat_with_ai true ChatCompletion.failure msg).message ∈
      chat_canned_messages ∧
    ((chat_with_ai true ChatCompletion.failure msg).status = 200 ∨
     (chat_with_ai true ChatCompletion.failure msg).status = 500) ∧
    ((chat_with_ai true ChatCompletion.failure msg).status = 500 ↔
      (TravelChatbot.chat_fallback msg).success = false) ∧
    TravelChatbot.recommend_packages false rcomp prefs pkgs = [] ∧
    TravelChatbot.recommend_packages true RecommendCompletion.failure
      prefs pkgs = [] ∧
    TravelChatbot.extract_booking_intent false icomp query = none ∧
    TravelChatbot.extract_booking_intent true IntentCompletion.failure
      query = none ∧
    TravelChatbot.summarize_reviews false scomp reviews pname =
      no_reviews_summary ∧
    ((TravelChatbot.summarize_reviews true SummaryCompletion.failure
        reviews pname).sentiment = "neutral" ∨
     (TravelChatbot.summarize_reviews true SummaryCompletion.failure
        reviews pname).sentiment = "mixed") := by
  have hne : (msg == "") = false := by simp [h2]
  have hchat : TravelChatbot.chat true msg ChatCompletion.failure =
      TravelChatbot.chat_fallback msg := by
    simp [TravelChatbot.chat, hne, h1]
  have hend : chat_with_ai true ChatCompletion.failure msg =
      ⟨if (TravelChatbot.chat_fallback msg).success then 200 else 500,
       (TravelChatbot.chat_fallback msg).success,
       (TravelChatbot.chat_fallback msg).message⟩ := by
    simp [chat_with_ai, h1, hne, hchat]
  refine ⟨?_, ?_, ?_, ?_, rfl, rfl, rfl, rfl, rfl, ?_⟩
  · simp [chat_with_ai, h1, hne, TravelChatbot.chat]
  · rw [hend]
    show (TravelChatbot.chat_fallback msg).message ∈ chat_canned_messages
    unfold TravelChatbot.chat_fallback
    by_cases hb : contains_any (python_lower msg)
        ["book", "booking", "reserve"] = true <;>
      by_cases hpr : contains_any (python_lower msg)
          ["price", "cost", "how much", "cheap", "budget"] = true <;>
        by_cases hde : contains_any (python_lower msg)
            ["destination", "where", "place", "country"] = true <;>
          simp [hb, hpr, hde, chat_canned_messages]
  · rw [hend]
    cases (TravelChatbot.chat_fallback msg).success <;> simp
  · rw [hend]
    cases (TravelChatbot.chat_fallback msg).success <;> simp
  · rcases reviews with _ | ⟨a, _ | ⟨b, _ | ⟨c, t⟩⟩⟩
    · left
      simp [TravelChatbot.summarize_reviews, no_reviews_summary]
    · left
      simp [TravelChatbot.summarize_reviews]
    · left
      simp [TravelChatbot.summarize_reviews]
    · right
      have hlen : ¬((a :: b :: c :: t).length ≤ 2) := by
        simp only [List.length_cons]
        omega
      simp [TravelChatbot.summarize_reviews, hlen]

/-- C4 witness: the amended theorem at the concrete message `hello`
(whose fallback reply is the unsuccessful generic one, hence 500), with
concrete outcomes for the other three operations and a three-review
list. -/
theorem C4_degrade_amended_witness :
    chat_with_ai false (ChatCompletion.ok "x") "hello" =
      ⟨500, false,
       "Chat service is currently unavailable. Please try again later."⟩ ∧
    (chat_with_ai true ChatCompletion.failure "hello").message ∈
      chat_canned_messages ∧
    ((chat_with_ai true ChatCompletion.failure "hello").status = 200 ∨
     (chat_with_ai true ChatCompletion.failure "hello").status = 500) ∧
    ((chat_with_ai true ChatCompletion.failure "hello").status = 500 ↔
      (TravelChatbot.chat_fallback "hello").success = false) ∧
    TravelChatbot.recommend_packages false
      (RecommendCompletion.ok [⟨1, 90, "fits"⟩]) ["beach"] [exPkgRow] =
      [] ∧
    TravelChatbot.recommend_packages true RecommendCompletion.failure
      ["beach"] [exPkgRow] = [] ∧
    TravelChatbot.extract_booking_intent false IntentCompletion.noToolCall
      "trip" = none ∧
    TravelChatbot.extract_booking_intent true IntentCompletion.failure
      "trip" = none ∧
    TravelChatbot.summarize_reviews false
      (SummaryCompletion.ok no_reviews_summary) [4, 5, 3] "P" =
      no_reviews_summary ∧
    ((TravelChatbot.summarize_reviews true SummaryCompletion.failure
        [4, 5, 3] "P").sentiment = "neutral" ∨
     (TravelChatbot.summarize_reviews true SummaryCompletion.failure
        [4, 5, 3] "P").sentiment = "mixed") :=
  C4_degrade_amended "hello" (ChatCompletion.ok "x")
    (RecommendCompletion.ok [⟨1, 90, "fits"⟩]) IntentCompletion.noToolCall
    (SummaryCompletion.ok no_reviews_summary) ["beach"] [exPkgRow] "trip"
    [4, 5, 3] "P" (by decide) (by decide)

/-- Example state: one vendor (profile 1, user 10) who has also left a
review, so the `reviews` table references user 10. -/
def exDbVendor : Db :=
  ⟨[⟨10, "v", "v@x.com", "V", 2, 1, none, "h"⟩],
   [⟨2, "vendor", some 10⟩],
   [⟨1, 10, "VCo", "LIC", "pending", 0⟩],
   [], [], [], [], [],
   [⟨1, 5, some 10, "V", 5⟩]⟩

/-- C5 counterexample: rejecting vendor 1 deletes the user row for user
10, yet a row referencing user 10 (their review) remains afterwards — an
orphan reference survives, contradicting the claim. -/
theorem C5_orphan_counterexample :
    (reject_vendor exDbVendor 1).status = 200 ∧
    (reject_vendor exDbVendor 1).db.users = [] ∧
    references_user (reject_vendor exDbVendor 1).db 10 = true := by
  decide

/-- C5 amended: rejecting an existing vendor returns 200 and deletes
exactly the vendor profile row, the `user_roles` rows for that user, and
the user rows with that id; `reviews` and `bookings` rows referencing that
`user_id` are not touched, so orphan references to the deleted user can
remain. -/
theorem C5_reject_vendor_amended (db : Db) (vid : Nat)
    (vp : VendorProfileRow)
    (h : db.vendor_profiles.find? (fun v => v.vendor_id == vid) = some vp) :
    (reject_vendor db vid).status = 200 ∧
    (reject_vendor db vid).db.vendor_profiles =
      db.vendor_profiles.filter (fun v => !(v.vendor_id == vid)) ∧
    (reject_vendor db vid).db.user_roles =
      db.user_roles.filter (fun x => !(x.user_id == some vp.user_id)) ∧
    (reject_vendor db vid).db.users =
      db.users.filter (fun u => !(u.user_id == vp.user_id)) ∧
    (reject_vendor db vid).db.reviews = db.reviews ∧
    (reject_vendor db vid).db.bookings = db.bookings := by
  simp [reject_vendor, h]

/-- C5 witness: the amended theorem at the concrete one-vendor state. -/
theorem C5_reject_vendor_amended_witness :
    (reject_vendor exDbVendor 1).status = 200 ∧
    (reject_vendor exDbVendor 1).db.vendor_profiles =
      exDbVendor.vendor_profiles.filter (fun v => !(v.vendor_id == 1)) ∧
    (reject_vendor exDbVendor 1).db.user_roles =
      exDbVendor.user_roles.filter (fun x => !(x.user_id == some 10)) ∧
    (reject_vendor exDbVendor 1).db.users =
      exDbVendor.users.filter (fun u => !(u.user_id == 10)) ∧
    (reject_vendor exDbVendor 1).db.reviews = exDbVendor.reviews ∧
    (reject_vendor exDbVendor 1).db.bookings = exDbVendor.bookings :=
  C5_reject_vendor_amended exDbVendor 1 ⟨1, 10, "VCo", "LIC", "pending", 0⟩
    (by decide)

/-- C6 counterexample: the rating 11/2 = 5.5 lies outside 1..5, yet
`int(5.5) = 5` passes the `int(rating) not in [1, 2, 3, 4, 5]` check, so
the request is not rejected: it returns 200 and writes a review row with
the truncated rating 5, contradicting the claim. -/
theorem C6_float_rating_counterexample :
    (5 : ℚ) < mkRat 11 2 ∧
    submit_review exDbCatalog none 1 (some (mkRat 11 2)) none 1 =
      ⟨200, "Review submitted successfully!",
       { exDbCatalog with reviews := [⟨1, 1, none, "Anonymous", 5⟩] }⟩ := by
  decide

/-- C6 amended: a review whose rating is absent or whose `int()`
truncation is outside 1..5 is rejected with HTTP 400 and the state — in
particular the `reviews` table — is returned unchanged; a non-integer
rating whose truncation lands in 1..5 (such as 5.5) is instead accepted
and stored truncated. -/
theorem C6_invalid_rating_rejected (db : Db) (sess : Option Nat)
    (pid : Nat) (name : Option String) (nid : Nat) (v : ℚ)
    (h : py_int v < 1 ∨ 5 < py_int v) :
    submit_review db sess pid (some v) name nid =
      ⟨400, "Please provide a valid rating (1-5)", db⟩ ∧
    submit_review db sess pid none name nid =
      ⟨400, "Please provide a valid rating (1-5)", db⟩ := by
  refine ⟨?_, rfl⟩
  have hmem : py_int v ∉ ([1, 2, 3, 4, 5] : List Int) := by
    intro hm
    simp only [List.mem_cons, List.not_mem_nil, or_false] at hm
    rcases hm with hm | hm | hm | hm | hm <;> omega
  have hc : ([1, 2, 3, 4, 5].contains (py_int v)) = false := by
    simpa using hmem
  have hcond : (v == 0 || !([1, 2, 3, 4, 5].contains (py_int v))) =
      true := by
    rw [hc]
    simp
  simp only [submit_review, hcond, if_true]

/-- C6 witness: the amended theorem at the rating 13/2 = 6.5, which
truncates to 6, outside 1..5. -/
theorem C6_invalid_rating_rejected_witness :
    submit_review exDbCatalog none 1 (some (mkRat 13 2)) none 1 =
      ⟨400, "Please provide a valid rating (1-5)", exDbCatalog⟩ ∧
    submit_review exDbCatalog none 1 none none 1 =
      ⟨400, "Please provide a valid rating (1-5)", exDbCatalog⟩ :=
  C6_invalid_rating_rejected exDbCatalog none 1 none 1 (mkRat 13 2)
    (by decide)

/-- Result shape of a successful `toggle_package_status` call. -/
theorem toggle_eq (db : Db) (vid pid : Nat) (r : PackageRow)
    (hfind : db.packages.find? (fun p => p.package_id == pid) = some r)
    (hown : (r.vendor_id == vid) = true) :
    toggle_package_status db vid pid =
      ⟨200, "Package toggled",
       { db with packages := db.packages.map (fun p =>
           if p.package_id == pid then
             { p with is_active := if r.is_active == 1 then 0 else 1 }
           else p) }⟩ := by
  simp [toggle_package_status, hfind, hown]

/-- C7: on a live package owned by the calling vendor whose `is_active`
flag is the 0/1 value the schema stores, toggling succeeds (200), toggling
twice restores the database exactly, and every package in the public
catalog listing has `is_active = 1` (so a disabled package never appears
there). -/
theorem C7_toggle_involutive_and_catalog (db : Db) (vid pid : Nat)
    (r : PackageRow)
    (hf : db.packages.filter (fun p => p.package_id == pid) = [r])
    (hown : r.vendor_id = vid)
    (hact : r.is_active = 0 ∨ r.is_active = 1) :
    (toggle_package_status db vid pid).status = 200 ∧
    (toggle_package_status (toggle_package_status db vid pid).db vid
      pid).db = db ∧
    (public_packages db).all (fun p => p.is_active == 1) = true := by
  obtain ⟨hmem, hqb⟩ := mem_of_filter_single _ _ _ hf
  have hqp : r.package_id = pid := by simpa using hqb
  have hfind : db.packages.find? (fun p => p.package_id == pid) =
      some r :=
    find_of_filter_single _ _ (fun _ h => h) _ _ hf hqb
  have hownb : (r.vendor_id == vid) = true := by simp [hown]
  have hstep1 := toggle_eq db vid pid r hfind hownb
  have hpres : ∀ x : PackageRow,
      (((fun p => if p.package_id == pid then
          { p with is_active := if r.is_active == 1 then 0 else 1 }
        else p) x).package_id == pid) = (x.package_id == pid) := by
    intro x
    by_cases hx : (x.package_id == pid) = true <;> simp [hx]
  have hfilter2 : ((db.packages.map (fun p =>
      if p.package_id == pid then
        { p with is_active := if r.is_active == 1 then 0 else 1 }
      else p)).filter (fun p => p.package_id == pid)) =
      [{ r with is_active := if r.is_active == 1 then 0 else 1 }] := by
    rw [filter_map_preserve _ _ hpres, hf]
    simp [hqp]
  have hfind2 : ((db.packages.map (fun p =>
      if p.package_id == pid then
        { p with is_active := if r.is_active == 1 then 0 else 1 }
      else p)).find? (fun p => p.package_id == pid)) =
      some { r with is_active := if r.is_active == 1 then 0 else 1 } :=
    find_of_filter_single _ _ (fun _ h => h) _ _ hfilter2 hqb
  refine ⟨by rw [hstep1], ?_, ?_⟩
  · rw [hstep1]
    have hstep2 := toggle_eq
      { db with packages := db.packages.map (fun p =>
          if p.package_id == pid then
            { p with is_active := if r.is_active == 1 then 0 else 1 }
          else p) } vid pid
      { r with is_active := if r.is_active == 1 then 0 else 1 }
      hfind2 hownb
    rw [hstep2]
    have hpkgs : ((db.packages.map (fun p =>
        if p.package_id == pid then
          { p with is_active := if r.is_active == 1 then 0 else 1 }
        else p)).map (fun p =>
        if p.package_id == pid then
          { p with is_active :=
              if ({ r with is_active :=
                  if r.is_active == 1 then 0 else 1 } :
                    PackageRow).is_active == 1 then 0 else 1 }
        else p)) = db.packages := by
      rw [List.map_map]
      apply map_eq_self_of_forall
      intro x hx
      by_cases hqx : (x.package_id == pid) = true
      · have hxr : x = r := eq_of_filter_single _ _ _ hf x hx hqx
        subst hxr
        obtain ⟨x1, x2, x3, x4, x5, x6, x7, x8, x9, x10, x11, x12, x13,
          x14, x15, x16, x17, x18, xact⟩ := x
        have hq1 : x1 = pid := by simpa using hqx
        subst hq1
        rcases hact with h0 | h0 <;>
          · simp only at h0
            subst h0
            simp [Function.comp]
      · have hq0 : x.package_id ≠ pid := by simpa using hqx
        simp [Function.comp, hq0]
    rw [hpkgs]
  · simp only [public_packages, List.all_eq_true]
    intro x hx
    have hpred := List.of_mem_filter hx
    simp only [Bool.and_eq_true] at hpred
    exact hpred.1.1

/-- Example state for the toggle claim: the live package `exPkgRow`
(id 1, vendor 2, destination 3, active) with its joined destination and
vendor profile rows. -/
def exDbToggle : Db :=
  ⟨[], [], [⟨2, 20, "VCo", "L", "verified", 0⟩],
   [⟨3, "Paris", "France", "d", "i"⟩], [], [exPkgRow], [], [], []⟩

/-- C7 witness: the theorem at the concrete one-package state. -/
theorem C7_toggle_involutive_and_catalog_witness :
    (toggle_package_status exDbToggle 2 1).status = 200 ∧
    (toggle_package_status (toggle_package_status exDbToggle 2 1).db 2
      1).db = exDbToggle ∧
    (public_packages exDbToggle).all (fun p => p.is_active == 1) = true :=
  C7_toggle_involutive_and_catalog exDbToggle 2 1 exPkgRow (by decide)
    rfl (Or.inr rfl)

/-- C8: a login attempt whose username (after stripping) and password are
non-empty but whose password fails both the secure check and the legacy
SHA-256 comparison against every user row carrying that username returns
HTTP 401 `Invalid credentials` and leaves the database — in particular
every field of every user row, `last_login` included — unchanged. -/
theorem C8_wrong_password_unchanged (db : Db) (rawUsername password : String)
    (secure_check : String → String → Bool)
    (sha256_hex gen_hash : String → String) (now : Nat)
    (h1 : py_strip rawUsername ≠ "") (h2 : password ≠ "")
    (hw : ∀ u ∈ db.users, u.username = py_strip rawUsername →
      secure_check u.password_hash password = false ∧
      sha256_hex password ≠ u.password_hash) :
    login db rawUsername password secure_check sha256_hex gen_hash now =
      ⟨401, "Invalid credentials", db⟩ := by
  have h1b : (py_strip rawUsername == "") = false := by simp [h1]
  have h2b : (password == "") = false := by simp [h2]
  cases hfu : db.users.find? (fun u => u.username == py_strip rawUsername)
    with
  | none => simp [login, login_lookup, hfu, h1b, h2b]
  | some u =>
      have humem := List.mem_of_find?_eq_some hfu
      have huname : u.username = py_strip rawUsername := by
        have := List.find?_some hfu
        simpa using this
      obtain ⟨hsec, hsha⟩ := hw u humem huname
      have hshab : (sha256_hex password == u.password_hash) = false := by
        simp [hsha]
      cases hfr : db.user_roles.find? (fun r => r.role_id == u.role_id)
        with
      | none => simp [login, login_lookup, hfu, hfr, h1b, h2b]
      | some rr =>
          simp [login, login_lookup, hfu, hfr, h1b, h2b, hsec, hshab]

/-- Example state for the login claim: one active customer whose stored
hash is `goodhash`. -/
def exDbLogin : Db :=
  ⟨[⟨10, "alice", "a@x.com", "Alice", 1, 1, some 7, "goodhash"⟩],
   [⟨1, "customer", none⟩], [], [], [], [], [], [], []⟩

/-- C8 witness: the theorem at a concrete user with a verifier that
rejects everything and a digest that never matches. -/
theorem C8_wrong_password_unchanged_witness :
    login exDbLogin "alice" "wrong" (fun _ _ => false) (fun _ => "nope")
      (fun _ => "newhash") 8 = ⟨401, "Invalid credentials", exDbLogin⟩ :=
  C8_wrong_password_unchanged exDbLogin "alice" "wrong"
    (fun _ _ => false) (fun _ => "nope") (fun _ => "newhash") 8
    (by decide) (by decide)
    (by
      intro u hu _
      refine ⟨rfl, ?_⟩
      have : u = ⟨10, "alice", "a@x.com", "Alice", 1, 1, some 7,
          "goodhash"⟩ := by
        simpa [exDbLogin] using hu
      rw [this]
      decide)

/-- C9: for every context (absent, empty, or any string),
`get_quick_replies` returns exactly five suggestions, none empty; the
function takes no provider outcome — it is deterministic in the context
alone and never calls the external AI provider. -/
theorem C9_quick_replies_five (c : Option String) :
    (TravelChatbot.get_quick_replies c).length = 5 ∧
    (TravelChatbot.get_quick_replies c).all (fun s => !(s == "")) =
      true := by
  cases c with
  | none => decide
  | some s =>
      by_cases h0 : (s == "") = true
      · simp only [TravelChatbot.get_quick_replies, h0, if_true]
        decide
      · by_cases h1 : (str_contains (python_lower s) "paris" ||
            str_contains (python_lower s) "europe") = true
        · simp [TravelChatbot.get_quick_replies, h0, h1]
        · by_cases h2 : (str_contains (python_lower s) "tokyo" ||
              str_contains (python_lower s) "japan" ||
              str_contains (python_lower s) "asia") = true
          · simp [TravelChatbot.get_quick_replies, h0, h1, h2]
          · by_cases h3 : (str_contains (python_lower s) "beach" ||
                str_contains (python_lower s) "tropical") = true
            · simp [TravelChatbot.get_quick_replies, h0, h1, h2, h3]
            · simp [TravelChatbot.get_quick_replies, h0, h1, h2, h3]

/-- C10: with at most two reviews, `summarize_reviews` returns the
deterministic neutral fallback without consulting the provider outcome
(the result is the same for any two outcomes), and the empty review list
yields the fixed no-reviews summary whether or not the client is
initialized. -/
theorem C10_small_review_sets_neutral (init : Bool)
    (comp comp2 : SummaryCompletion) (reviews : List Int)
    (pname pname2 : String) (h : reviews.length ≤ 2) :
    (TravelChatbot.summarize_reviews init comp reviews pname).sentiment =
      "neutral" ∧
    TravelChatbot.summarize_reviews init comp reviews pname =
      TravelChatbot.summarize_reviews init comp2 reviews pname ∧
    TravelChatbot.summarize_reviews init comp ([] : List Int) pname2 =
      no_reviews_summary := by
  rcases reviews with _ | ⟨a, _ | ⟨b, _ | ⟨c, t⟩⟩⟩
  · cases init <;>
      simp [TravelChatbot.summarize_reviews, no_reviews_summary]
  · cases init <;>
      simp [TravelChatbot.summarize_reviews, no_reviews_summary]
  · cases init <;>
      simp [TravelChatbot.summarize_reviews, no_reviews_summary]
  · exfalso
    simp at h

/-- C10 witness: the theorem at the concrete two-review list `[4, 5]`. -/
theorem C10_small_review_sets_neutral_witness :
    (TravelChatbot.summarize_reviews true SummaryCompletion.failure
      [4, 5] "P").sentiment = "neutral" ∧
    TravelChatbot.summarize_reviews true SummaryCompletion.failure
      [4, 5] "P" =
      TravelChatbot.summarize_reviews true
        (SummaryCompletion.ok no_reviews_summary) [4, 5] "P" ∧
    TravelChatbot.summarize_reviews true SummaryCompletion.failure
      ([] : List Int) "Q" = no_reviews_summary :=
  C10_small_review_sets_neutral true SummaryCompletion.failure
    (SummaryCompletion.ok no_reviews_summary) [4, 5] "P" "Q" (by decide)
